import Mathlib

/-!
Shallow embedding of the keystone application-credential service and the
external authentication plugins, together with proofs of the behavioural
claims about them.

Sources embedded:
- keystone/application_credential/core.py  (class Manager)
- keystone/application_credential/backends/base.py (abstract driver contract)
- keystone/auth/plugins/external.py (Base, DefaultDomain, Domain, KerberosDomain)

Modelling conventions:
- Python dicts are association lists with string keys; python dicts have
  unique keys, and the list operations below preserve that discipline
  (lookup finds the first entry, assignment replaces in place, pop removes
  the entry).
- External collaborators (the Store Driver, the Role Assignment Oracle, the
  role API, the identity and resource backends) are oracle functions packed
  in an environment structure; they are out of scope per the design, only
  their call sites and the call order matter here.
- Side effects (driver calls, Role Assignment Oracle queries, cache
  invalidation, audit events) are recorded in an event trace, in program
  order, including the events that happened before an exception.
- Exceptions are an explicit error type threaded through `Except`.
-/

/-- A role reference or role object: a python dict with string values
(for example a requested role `\x7b'id': ...\x7d` or the dict returned by
`role_api.get_role`). -/
abbrev SDict := List (String × String)

/-- A value stored in an application-credential dict: either a string field
or the list of role dicts stored under the key "roles". -/
inductive Value where
  | str : String → Value
  | roles : List SDict → Value
deriving DecidableEq, Repr

/-- An application-credential record: a python dict. -/
abbrev Dict := List (String × Value)

/-- Exceptions raised by the embedded code. `keyError` is python's KeyError,
`typeError` stands for the TypeError python raises when a value of the wrong
shape is used, the remaining constructors are the keystone exception classes
that appear in the source. -/
inductive Err where
  | keyError (key : String)
  | typeError
  | roleAssignmentNotFound (role_id actor_id target_id : String)
  | unauthorized (msg : String)
deriving DecidableEq, Repr

/-- Python `d[k]`, returning `none` when the key is absent. -/
def dget {α : Type} : List (String × α) → String → Option α
  | [], _ => none
  | (k', v) :: rest, k => if k' = k then some v else dget rest k

/-- Python `d[k]` raising KeyError when the key is absent. -/
def dgetE {α : Type} (d : List (String × α)) (k : String) : Except Err α :=
  match dget d k with
  | some v => .ok v
  | none => .error (.keyError k)

/-- Python `d[k] = v`: replace the entry in place, appending when absent. -/
def dset {α : Type} : List (String × α) → String → α → List (String × α)
  | [], k, v => [(k, v)]
  | (k', v') :: rest, k, v => if k' = k then (k, v) :: rest else (k', v') :: dset rest k v

/-- Removal of a key, as performed by python `d.pop(k)` / `d.pop(k, default)`
on a dict with unique keys. -/
def derase {α : Type} : List (String × α) → String → List (String × α)
  | [], _ => []
  | (k', v) :: rest, k => if k' = k then derase rest k else (k', v) :: derase rest k

/-- The `resource_info` field of an event payload: a plain id for the
user-deleted / user-disabled events, a dict carrying `user_id` and
`project_id` for the role-assignment-removal event. -/
inductive RInfo where
  | str : String → RInfo
  | dict : SDict → RInfo
deriving DecidableEq, Repr

/-- Observable effects of the Manager, recorded in program order. -/
inductive Event where
  | oracleQuery (user_id project_id : String)
  | driverCreate (record : Dict) (roles : List SDict)
  | driverGet (id : String)
  | driverDelete (id : String)
  | driverDeleteForUser (user_id : RInfo)
  | driverDeleteForUserOnProject (user_id project_id : String)
  | cacheInvalidate
  | auditCreated (id : Value)
  | auditDeleted (id : String)
deriving DecidableEq, Repr

/-- The Manager's external collaborators (`self.assignment_api`,
`PROVIDERS.role_api`, `self.driver`), packed as oracle functions. -/
structure Env where
  list_role_assignments : String → String → List SDict
  get_role : String → SDict
  driver_create : Dict → List SDict → Dict
  driver_get : String → Except Err Dict
  driver_delete : String → Except Err Unit

/-- The Manager's mutable state: the memoization cache of
`get_application_credential`, keyed by credential id. -/
structure MState where
  cache : List (String × Dict)

/-- The comprehension `[x['role_id'] for x in assignment_list]` inside
`Manager._get_user_roles`: each assignment dict is indexed with
`'role_id'` (KeyError when absent). -/
def roleIdsOf : List SDict → Except Err (List String)
  | [] => .ok []
  | x :: rest =>
    match dgetE x "role_id" with
    | .error e => .error e
    | .ok rid =>
      match roleIdsOf rest with
      | .error e => .error e
      | .ok rids => .ok (rid :: rids)

/-- Source `Manager._get_user_roles`: query the Role Assignment Oracle with
effective semantics and return the deduplicated role ids
(`list(set([x['role_id'] for x in assignment_list]))`; only membership in
the result is ever used downstream, so the set-to-list order is modelled by
`List.dedup`). The oracle query is recorded in the trace. -/
def _get_user_roles (env : Env) (user_id project_id : String) :
    Except Err (List String) × List Event :=
  let assignment_list := env.list_role_assignments user_id project_id
  (match roleIdsOf assignment_list with
   | .error e => .error e
   | .ok rids => .ok rids.dedup,
   [Event.oracleQuery user_id project_id])

/-- The `for role in roles` loop of
`Manager._require_user_has_role_in_project`: for each requested role, the
matching user roles are `[x for x in user_roles if x == role['id']]` and an
empty match raises RoleAssignmentNotFound with the role, actor and target. -/
def requireRolesLoop (user_roles : List String) (user_id project_id : String) :
    List SDict → Except Err Unit
  | [] => .ok ()
  | role :: rest =>
    match dgetE role "id" with
    | .error e => .error e
    | .ok rid =>
      let matching_roles := user_roles.filter (fun x => x == rid)
      if matching_roles.isEmpty then
        .error (.roleAssignmentNotFound rid user_id project_id)
      else requireRolesLoop user_roles user_id project_id rest

/-- Source `Manager._require_user_has_role_in_project`. -/
def _require_user_has_role_in_project (env : Env) (roles : List SDict)
    (user_id project_id : String) : Except Err Unit × List Event :=
  match _get_user_roles env user_id project_id with
  | (.error e, evs) => (.error e, evs)
  | (.ok user_roles, evs) => (requireRolesLoop user_roles user_id project_id roles, evs)

/-- Source `Manager._get_role_list`: expand each role reference to the full role
object via `PROVIDERS.role_api.get_role(role['id'])`, in order. -/
def _get_role_list (env : Env) : List SDict → Except Err (List SDict)
  | [] => .ok []
  | role :: rest =>
    match dgetE role "id" with
    | .error e => .error e
    | .ok rid =>
      match _get_role_list env rest with
      | .error e => .error e
      | .ok roles => .ok (env.get_role rid :: roles)

/-- Source `Manager._process_app_cred`: copy the record (value semantics here;
object identity is treated by the heap model below), `pop('secret_hash')`
(KeyError when absent), and replace `'roles'` by the expanded role
objects. A non-list under `'roles'` is the TypeError python would raise
when `_get_role_list` iterates it. -/
def _process_app_cred (env : Env) (app_cred_ref : Dict) : Except Err Dict :=
  match dget app_cred_ref "secret_hash" with
  | none => .error (.keyError "secret_hash")
  | some _ =>
    let ref1 := derase app_cred_ref "secret_hash"
    match dget ref1 "roles" with
    | none => .error (.keyError "roles")
    | some (Value.str _) => .error .typeError
    | some (Value.roles rl) =>
      match _get_role_list env rl with
      | .error e => .error e
      | .ok expanded => .ok (dset ref1 "roles" (Value.roles expanded))

/-- Source `Manager.create_application_credential`: copy the input (value
semantics here; the heap model below tracks object identity), read
`user_id` and `project_id`, `pop('roles', [])`, run the role check, read
the plaintext secret, persist via the Store Driver, re-attach the
plaintext secret, process the record, emit the "created" audit event with
`application_credential['id']`, and return the projection. -/
def create_application_credential (env : Env) (application_credential : Dict) :
    Except Err Dict × List Event :=
  match dget application_credential "user_id" with
  | none => (.error (.keyError "user_id"), [])
  | some (Value.roles _) => (.error .typeError, [])
  | some (Value.str user_id) =>
    match dget application_credential "project_id" with
    | none => (.error (.keyError "project_id"), [])
    | some (Value.roles _) => (.error .typeError, [])
    | some (Value.str project_id) =>
      let ac1 := derase application_credential "roles"
      match (dget application_credential "roles").getD (Value.roles []) with
      | Value.str _ => (.error .typeError, [])
      | Value.roles roles =>
        match _require_user_has_role_in_project env roles user_id project_id with
        | (.error e, evs) => (.error e, evs)
        | (.ok _, evs) =>
          match dget ac1 "secret" with
          | none => (.error (.keyError "secret"), evs)
          | some unhashed_secret =>
            let ref0 := env.driver_create ac1 roles
            let evs1 := evs ++ [Event.driverCreate ac1 roles]
            let ref1 := dset ref0 "secret" unhashed_secret
            match _process_app_cred env ref1 with
            | .error e => (.error e, evs1)
            | .ok ref2 =>
              match dget ac1 "id" with
              | none => (.error (.keyError "id"), evs1)
              | some idv => (.ok ref2, evs1 ++ [Event.auditCreated idv])

/-- Source `Manager.get_application_credential`. The MEMOIZE wrapper is modelled
from the spec: a read-through cache keyed by credential id, consulted
first, populated with the successful return value on a miss, never
populated on failure. -/
def get_application_credential (env : Env) (st : MState)
    (application_credential_id : String) : Except Err Dict × MState × List Event :=
  match dget st.cache application_credential_id with
  | some cached => (.ok cached, st, [])
  | none =>
    match env.driver_get application_credential_id with
    | .error e => (.error e, st, [Event.driverGet application_credential_id])
    | .ok app_cred =>
      match _process_app_cred env app_cred with
      | .error e => (.error e, st, [Event.driverGet application_credential_id])
      | .ok proj =>
        (.ok proj, ⟨dset st.cache application_credential_id proj⟩,
         [Event.driverGet application_credential_id])

/-- Source `Manager.delete_application_credential`: invalidate the cache, then
drive the Store Driver delete, then emit the "deleted" audit event. The
MEMOIZE invalidation is modelled from the spec: the source calls
`self.get_application_credential.invalidate()` with no arguments, which is
modelled as flushing every entry of that function's cache — in particular
the entry for `application_credential_id` is gone. A driver failure
propagates and skips the audit event. -/
def delete_application_credential (env : Env) (_st : MState)
    (application_credential_id : String) : Except Err Unit × MState × List Event :=
  let st1 : MState := ⟨[]⟩
  match env.driver_delete application_credential_id with
  | .error e =>
    (.error e, st1, [Event.cacheInvalidate, Event.driverDelete application_credential_id])
  | .ok _ =>
    (.ok (), st1,
     [Event.cacheInvalidate, Event.driverDelete application_credential_id,
      Event.auditDeleted application_credential_id])

/-- Source `Manager._delete_application_credentials_for_user`: delegate to the
Store Driver bulk delete by user. The parameter is whatever the callback
extracted from the payload. -/
def _delete_application_credentials_for_user (user_id : RInfo) : List Event :=
  [Event.driverDeleteForUser user_id]

/-- Source `Manager._delete_application_credentials_for_user_on_project`: delegate
to the Store Driver bulk delete by (user, project). -/
def _delete_application_credentials_for_user_on_project (user_id project_id : String) :
    List Event :=
  [Event.driverDeleteForUserOnProject user_id project_id]

/-- Source `Manager._delete_app_creds_on_user_delete_callback`:
`payload['resource_info']` is the user id. -/
def _delete_app_creds_on_user_delete_callback (_service _resource_type _operation : String)
    (payload : List (String × RInfo)) : Except Err (List Event) :=
  match dget payload "resource_info" with
  | none => .error (.keyError "resource_info")
  | some user_id => .ok (_delete_application_credentials_for_user user_id)

/-- Source `Manager._delete_app_creds_on_assignment_removal`:
`payload['resource_info']['user_id']` and
`payload['resource_info']['project_id']`; indexing a non-dict is the
TypeError python would raise. -/
def _delete_app_creds_on_assignment_removal (_service _resource_type _operation : String)
    (payload : List (String × RInfo)) : Except Err (List Event) :=
  match dget payload "resource_info" with
  | none => .error (.keyError "resource_info")
  | some (RInfo.str _) => .error .typeError
  | some (RInfo.dict resource_info) =>
    match dgetE resource_info "user_id" with
    | .error e => .error e
    | .ok user_id =>
      match dgetE resource_info "project_id" with
      | .error e => .error e
      | .ok project_id =>
        .ok (_delete_application_credentials_for_user_on_project user_id project_id)

/-- The two callbacks the Manager registers. -/
inductive Callback where
  | onUserDelete
  | onAssignmentRemoval
deriving DecidableEq, Repr

/-- Modelled from the spec: `notifications.ACTIONS.deleted`, the
user-deleted event action name (keystone/notifications.py is not part of
this repository). -/
def ACTIONS_deleted : String := "deleted"

/-- Modelled from the spec: `notifications.ACTIONS.disabled`, the
user-disabled event action name. -/
def ACTIONS_disabled : String := "disabled"

/-- Modelled from the spec: `notifications.ACTIONS.internal`, the action
name of internal notifications. -/
def ACTIONS_internal : String := "internal"

/-- Modelled from the spec: the internal event emitted when a role
assignment is removed (`notifications.INVALIDATE_USER_PROJECT_TOKEN_PERSISTENCE`). -/
def INVALIDATE_USER_PROJECT_TOKEN_PERSISTENCE : String :=
  "invalidate_user_project_tokens"

/-- Source `Manager._register_callback_listeners`: the (action, resource type,
callback) registrations, in source order. -/
def _register_callback_listeners : List (String × String × Callback) :=
  [(ACTIONS_deleted, "user", Callback.onUserDelete),
   (ACTIONS_disabled, "user", Callback.onUserDelete),
   (ACTIONS_internal, INVALIDATE_USER_PROJECT_TOKEN_PERSISTENCE,
    Callback.onAssignmentRemoval)]

/-- Dispatch a registered callback on a delivered payload. -/
def runCallback : Callback → String → String → String → List (String × RInfo) →
    Except Err (List Event)
  | .onUserDelete => _delete_app_creds_on_user_delete_callback
  | .onAssignmentRemoval => _delete_app_creds_on_assignment_removal

/-- Modelled from the spec: the in-memory reference Store Driver state —
the stored credential records (backends/base.py declares the contract
only; no concrete driver is part of this repository). -/
abbrev Store := List Dict

/-- Modelled from the spec: the Store Driver's idempotent bulk delete by
user (`delete_application_credentials_for_user`): remove every stored
record owned by that user. -/
def store_delete_for_user (store : Store) (user_id : String) : Store :=
  store.filter (fun r => decide (dget r "user_id" ≠ some (Value.str user_id)))

/-- Modelled from the spec: the Store Driver's idempotent bulk delete by
(user, project) (`delete_application_credentials_for_user_on_project`):
remove every stored record owned by that user and scoped to that
project. -/
def store_delete_for_user_on_project (store : Store) (user_id project_id : String) : Store :=
  store.filter (fun r =>
    decide (¬(dget r "user_id" = some (Value.str user_id) ∧
              dget r "project_id" = some (Value.str project_id))))

/-! ### Heap model of object identity

The frame claim about `create_application_credential` and
`_process_app_cred` (no mutation of the caller-supplied dict and of the
record passed in) cannot be stated with value semantics alone, so the two
functions are re-traced here over an explicit heap of dict objects:
addresses are indices, python's `d.copy()` allocates, `d.pop(...)` and
`d[k] = v` write through the address of their receiver. Every other step
is identical to the value-level embedding above. -/

/-- The heap of live dict objects; an address is an index. -/
abbrev Heap := List Dict

/-- Dereference an address. -/
def Heap.read (h : Heap) (r : Nat) : Dict := h.getD r []

/-- Write through an address. -/
def Heap.write (h : Heap) (r : Nat) (d : Dict) : Heap := h.set r d

/-- Source `Manager._process_app_cred` over the heap: `app_cred_ref.copy()`
allocates, the `pop` and the `'roles'` assignment mutate the copy only. -/
def _process_app_cred_heap (env : Env) (h0 : Heap) (r : Nat) : Except Err Nat × Heap :=
  let h1 := h0 ++ [Heap.read h0 r]
  let r1 := h0.length
  match dget (Heap.read h1 r1) "secret_hash" with
  | none => (.error (.keyError "secret_hash"), h1)
  | some _ =>
    let h2 := Heap.write h1 r1 (derase (Heap.read h1 r1) "secret_hash")
    match dget (Heap.read h2 r1) "roles" with
    | none => (.error (.keyError "roles"), h2)
    | some (Value.str _) => (.error .typeError, h2)
    | some (Value.roles rl) =>
      match _get_role_list env rl with
      | .error e => (.error e, h2)
      | .ok expanded =>
        (.ok r1, Heap.write h2 r1 (dset (Heap.read h2 r1) "roles" (Value.roles expanded)))

/-- Source `Manager.create_application_credential` over the heap: line 125's
`application_credential.copy()` allocates, so `pop('roles', [])` mutates
the copy; the driver-returned record is a fresh object, mutated by the
`ref['secret'] = unhashed_secret` assignment; `_process_app_cred` copies
again. The caller-supplied dict at `acRef` is never written. -/
def create_application_credential_heap (env : Env) (h0 : Heap) (acRef : Nat) :
    Except Err Nat × Heap :=
  let h1 := h0 ++ [Heap.read h0 acRef]
  let r := h0.length
  match dget (Heap.read h1 r) "user_id" with
  | none => (.error (.keyError "user_id"), h1)
  | some (Value.roles _) => (.error .typeError, h1)
  | some (Value.str user_id) =>
    match dget (Heap.read h1 r) "project_id" with
    | none => (.error (.keyError "project_id"), h1)
    | some (Value.roles _) => (.error .typeError, h1)
    | some (Value.str project_id) =>
      let rolesV := (dget (Heap.read h1 r) "roles").getD (Value.roles [])
      let h2 := Heap.write h1 r (derase (Heap.read h1 r) "roles")
      match rolesV with
      | Value.str _ => (.error .typeError, h2)
      | Value.roles roles =>
        match _require_user_has_role_in_project env roles user_id project_id with
        | (.error e, _) => (.error e, h2)
        | (.ok _, _) =>
          match dget (Heap.read h2 r) "secret" with
          | none => (.error (.keyError "secret"), h2)
          | some unhashed_secret =>
            let h3 := h2 ++ [env.driver_create (Heap.read h2 r) roles]
            let refR := h2.length
            let h4 := Heap.write h3 refR (dset (Heap.read h3 refR) "secret" unhashed_secret)
            match _process_app_cred_heap env h4 refR with
            | (.error e, h5) => (.error e, h5)
            | (.ok r2, h5) =>
              match dget (Heap.read h5 r) "id" with
              | none => (.error (.keyError "id"), h5)
              | some _ => (.ok r2, h5)

/-! ### External authentication plugins (keystone/auth/plugins/external.py)

`request.remote_user`, `request.remote_domain` and `request.auth_type` are
modelled as strings where the empty string stands for an absent value: the
source only ever tests them for truthiness (`if not request.remote_user`,
`if request.remote_domain`, `request.auth_type or ''`) or compares them to
literals, and `None` and `''` behave identically under every one of those
uses. -/

/-- The request attributes the plugins read. -/
structure Request where
  remote_user : String
  remote_domain : String
  auth_type : String
deriving DecidableEq, Repr

/-- A user or domain reference returned by the identity / resource
backends: a dict with string fields. -/
abbrev URef := SDict

/-- The plugins' external collaborators: `self.identity_api`,
`self.resource_api` and the configuration (`CONF.identity.default_domain_id`,
`CONF.token.bind`). Backend lookups may raise anything; the error payload
is a plain string. -/
structure AuthEnv where
  get_user_by_name : String → String → Except Err URef
  get_domain_by_name : String → Except Err URef
  default_domain_id : String
  token_bind : List String

/-- Backend lookups performed during user/domain resolution. -/
inductive AEvent where
  | identityLookup (name domain_id : String)
  | domainLookup (name : String)
deriving DecidableEq, Repr

/-- A value in the `response_data` dict: the plain `user_id` string or the
nested `bind` dict. -/
inductive AVal where
  | str : String → AVal
  | dict : SDict → AVal
deriving DecidableEq, Repr

/-- Source `base.AuthHandlerResponse`. -/
structure AuthHandlerResponse where
  status : Bool
  response_body : Option String
  response_data : List (String × AVal)
deriving DecidableEq, Repr

/-- The concrete `_authenticate` variants. -/
inductive Variant where
  | defaultDomain
  | domain
  | kerberosDomain
deriving DecidableEq, Repr

/-- Source `DefaultDomain._authenticate`: look the principal up in the configured
default domain. -/
def DefaultDomain_authenticate_resolve (env : AuthEnv) (request : Request) :
    Except Err URef × List AEvent :=
  (env.get_user_by_name request.remote_user env.default_domain_id,
   [AEvent.identityLookup request.remote_user env.default_domain_id])

/-- Source `Domain._authenticate`: resolve `REMOTE_DOMAIN` when present, fall back
to the default domain, then look the principal up in that domain. -/
def Domain_authenticate_resolve (env : AuthEnv) (request : Request) :
    Except Err URef × List AEvent :=
  if request.remote_domain ≠ "" then
    match env.get_domain_by_name request.remote_domain with
    | .error e => (.error e, [AEvent.domainLookup request.remote_domain])
    | .ok ref =>
      match dgetE ref "id" with
      | .error e => (.error e, [AEvent.domainLookup request.remote_domain])
      | .ok domain_id =>
        (env.get_user_by_name request.remote_user domain_id,
         [AEvent.domainLookup request.remote_domain,
          AEvent.identityLookup request.remote_user domain_id])
  else
    (env.get_user_by_name request.remote_user env.default_domain_id,
     [AEvent.identityLookup request.remote_user env.default_domain_id])

/-- Source `KerberosDomain._authenticate`: require the asserted mechanism to be
exactly `'Negotiate'` before delegating to `Domain._authenticate`. -/
def KerberosDomain_authenticate_resolve (env : AuthEnv) (request : Request) :
    Except Err URef × List AEvent :=
  if request.auth_type ≠ "Negotiate" then
    (.error (.unauthorized "auth_type is not Negotiate"), [])
  else Domain_authenticate_resolve env request

/-- Dynamic dispatch of `self._authenticate` over the concrete class. -/
def _authenticate (env : AuthEnv) : Variant → Request → Except Err URef × List AEvent
  | .defaultDomain => DefaultDomain_authenticate_resolve env
  | .domain => Domain_authenticate_resolve env
  | .kerberosDomain => KerberosDomain_authenticate_resolve env

/-- Source `Base.authenticate`: fail Unauthorized on a missing principal; catch
every resolution exception and replace it with Unauthorized
`'Unable to lookup user %s'`; on success build `response_data` with
`user_id` and, when `'kerberos' in CONF.token.bind` and the lowercased
`auth_type` is `'negotiate'`, the kerberos bind carrying the user's
name. -/
def authenticate (env : AuthEnv) (v : Variant) (request : Request) :
    Except Err AuthHandlerResponse × List AEvent :=
  if request.remote_user = "" then
    (.error (.unauthorized "No authenticated user"), [])
  else
    match _authenticate env v request with
    | (.error _, evs) =>
      (.error (.unauthorized ("Unable to lookup user " ++ request.remote_user)), evs)
    | (.ok user_ref, evs) =>
      match dgetE user_ref "id" with
      | .error e => (.error e, evs)
      | .ok uid =>
        let response_data : List (String × AVal) := [("user_id", AVal.str uid)]
        let auth_type := request.auth_type.toLower
        if "kerberos" ∈ env.token_bind ∧ auth_type = "negotiate" then
          match dgetE user_ref "name" with
          | .error e => (.error e, evs)
          | .ok nm =>
            (.ok ⟨true, none, dset response_data "bind" (AVal.dict [("kerberos", nm)])⟩,
             evs)
        else
          (.ok ⟨true, none, response_data⟩, evs)

/-! ### Helper lemmas about the dict operations -/

theorem dget_dset_self {α : Type} (d : List (String × α)) (k : String) (v : α) :
    dget (dset d k v) k = some v := by
  induction d with
  | nil => simp [dget, dset]
  | cons p rest ih =>
    obtain ⟨k', v'⟩ := p
    by_cases h : k' = k <;> simp [dget, dset, h, ih]

theorem dget_dset_ne {α : Type} (d : List (String × α)) (k k2 : String) (v : α)
    (h : k2 ≠ k) : dget (dset d k v) k2 = dget d k2 := by
  have h' : ¬(k = k2) := fun hh => h hh.symm
  induction d with
  | nil => simp [dget, dset, h']
  | cons p rest ih =>
    obtain ⟨k', v'⟩ := p
    by_cases hk : k' = k
    · subst hk
      simp [dget, dset, h']
    · by_cases hk2 : k' = k2 <;> simp [dget, dset, hk, hk2, ih, h]

theorem dget_derase_self {α : Type} (d : List (String × α)) (k : String) :
    dget (derase d k) k = none := by
  induction d with
  | nil => simp [dget, derase]
  | cons p rest ih =>
    obtain ⟨k', v'⟩ := p
    by_cases h : k' = k <;> simp [dget, derase, h, ih]

theorem dget_derase_ne {α : Type} (d : List (String × α)) (k k2 : String)
    (h : k2 ≠ k) : dget (derase d k) k2 = dget d k2 := by
  have h' : ¬(k = k2) := fun hh => h hh.symm
  induction d with
  | nil => simp [derase]
  | cons p rest ih =>
    obtain ⟨k', v'⟩ := p
    by_cases hk : k' = k
    · subst hk
      simp [dget, derase, h', ih]
    · by_cases hk2 : k' = k2 <;> simp [dget, derase, hk, hk2, ih, h]

theorem dgetE_error {α : Type} (d : List (String × α)) (k : String) (e : Err)
    (h : dgetE d k = .error e) : e = .keyError k := by
  unfold dgetE at h
  cases hd : dget d k <;> simp [hd] at h
  exact h.symm

/-! ### Helper lemmas about the role check and role expansion -/

theorem requireRolesLoop_skips_met (urs : List String) (uid pid : String)
    (pre rest : List SDict)
    (hpre : ∀ r ∈ pre, ∃ rid, dget r "id" = some rid ∧ rid ∈ urs) :
    requireRolesLoop urs uid pid (pre ++ rest) = requireRolesLoop urs uid pid rest := by
  induction pre with
  | nil => rfl
  | cons r pre ih =>
    obtain ⟨rid, hid, hmem⟩ := hpre r (List.mem_cons_self r pre)
    have hne : (urs.filter (fun x => x == rid)).isEmpty = false := by
      have : rid ∈ urs.filter (fun x => x == rid) :=
        List.mem_filter.mpr ⟨hmem, by simp⟩
      cases hf : urs.filter (fun x => x == rid) with
      | nil => rw [hf] at this; cases this
      | cons a l => simp [List.isEmpty]
    have hrest : ∀ r' ∈ pre, ∃ rid', dget r' "id" = some rid' ∧ rid' ∈ urs :=
      fun r' hr' => hpre r' (List.mem_cons_of_mem r hr')
    simp only [List.cons_append, requireRolesLoop, dgetE, hid, hne]
    exact ih hrest

theorem requireRolesLoop_first_unmet (urs : List String) (uid pid : String)
    (bad : SDict) (rest : List SDict) (bid : String)
    (hbad : dget bad "id" = some bid) (hmiss : bid ∉ urs) :
    requireRolesLoop urs uid pid (bad :: rest) =
      .error (.roleAssignmentNotFound bid uid pid) := by
  have hemp : (urs.filter (fun x => x == bid)).isEmpty = true := by
    have : urs.filter (fun x => x == bid) = [] := by
      rw [List.filter_eq_nil_iff]
      intro a ha
      simp only [beq_iff_eq]
      intro hEq
      exact hmiss (hEq ▸ ha)
    simp [this]
  simp only [requireRolesLoop, dgetE, hbad, hemp]
  simp

theorem require_eq (env : Env) (uid pid : String) (roles : List SDict)
    (urs : List String) (h : (_get_user_roles env uid pid).1 = .ok urs) :
    _require_user_has_role_in_project env roles uid pid =
      (requireRolesLoop urs uid pid roles, [Event.oracleQuery uid pid]) := by
  have h2 : _get_user_roles env uid pid = (.ok urs, [Event.oracleQuery uid pid]) := by
    rw [Prod.ext_iff]
    exact ⟨h, rfl⟩
  simp [_require_user_has_role_in_project, h2]

/-- The ids, in order, of a list of role references (used to state the
theorems about role expansion). -/
def roleRefIds : List SDict → Except Err (List String)
  | [] => .ok []
  | r :: rest =>
    match dgetE r "id" with
    | .error e => .error e
    | .ok rid =>
      match roleRefIds rest with
      | .error e => .error e
      | .ok rids => .ok (rid :: rids)

theorem get_role_list_eq_map (env : Env) (rl : List SDict) (ids : List String)
    (h : roleRefIds rl = .ok ids) :
    _get_role_list env rl = .ok (ids.map env.get_role) := by
  induction rl generalizing ids with
  | nil =>
    simp only [roleRefIds] at h
    cases h
    rfl
  | cons r rest ih =>
    simp only [roleRefIds] at h
    cases hid : dgetE r "id" with
    | error e => rw [hid] at h; cases h
    | ok rid =>
      rw [hid] at h
      cases hrest : roleRefIds rest with
      | error e => rw [hrest] at h; cases h
      | ok rids =>
        rw [hrest] at h
        cases h
        simp only [_get_role_list, hid, ih rids hrest, List.map]

theorem roleIdsOf_error_shape (l : List SDict) (e : Err)
    (h : roleIdsOf l = .error e) : e = .keyError "role_id" := by
  induction l with
  | nil => simp [roleIdsOf] at h
  | cons x rest ih =>
    simp only [roleIdsOf] at h
    cases hx : dgetE x "role_id" with
    | error e' =>
      rw [hx] at h
      cases h
      exact dgetE_error x "role_id" e hx
    | ok rid =>
      rw [hx] at h
      cases hr : roleIdsOf rest with
      | error e' => rw [hr] at h; cases h; exact ih hr
      | ok rids => rw [hr] at h; cases h

/-! ### Claim theorems -/

/-- Claim C1: for every create request in which the requesting user does
not effectively hold at least one of the requested roles on the target
project, `create_application_credential` raises RoleAssignmentNotFound
carrying the offending (first unmet) role's id, the user id as actor and
the project id as target, and the whole trace is the single Role
Assignment Oracle query — the Store Driver's create is never invoked, so
the role check is strictly ordered before persistence. -/
theorem C1_create_unmet_role_fails_before_persistence
    (env : Env) (ac : Dict) (user_id project_id : String)
    (pre : List SDict) (bad : SDict) (rest : List SDict)
    (user_roles : List String) (bad_id : String)
    (hu : dget ac "user_id" = some (Value.str user_id))
    (hp : dget ac "project_id" = some (Value.str project_id))
    (hr : dget ac "roles" = some (Value.roles (pre ++ bad :: rest)))
    (hur : (_get_user_roles env user_id project_id).1 = .ok user_roles)
    (hpre : ∀ r ∈ pre, ∃ rid, dget r "id" = some rid ∧ rid ∈ user_roles)
    (hbad : dget bad "id" = some bad_id)
    (hmiss : bad_id ∉ user_roles) :
    create_application_credential env ac =
      (.error (.roleAssignmentNotFound bad_id user_id project_id),
       [Event.oracleQuery user_id project_id]) := by
  have hreq : _require_user_has_role_in_project env (pre ++ bad :: rest)
      user_id project_id =
      (.error (.roleAssignmentNotFound bad_id user_id project_id),
       [Event.oracleQuery user_id project_id]) := by
    rw [require_eq env user_id project_id _ user_roles hur,
        requireRolesLoop_skips_met user_roles user_id project_id pre (bad :: rest) hpre,
        requireRolesLoop_first_unmet user_roles user_id project_id bad rest bad_id hbad
          hmiss]
  simp only [create_application_credential, hu, hp, hr, Option.getD_some, hreq]

/-- A concrete environment for the witnesses: one effective role
assignment ("r-member"), a role API echoing the id, a Store Driver that
decorates the record with an id and a secret hash. -/
def envW : Env where
  list_role_assignments := fun _ _ => [[("role_id", "r-member")]]
  get_role := fun rid => [("id", rid), ("name", "role-" ++ rid)]
  driver_create := fun d roles =>
    dset (dset d "secret_hash" (Value.str "HASH")) "roles" (Value.roles roles)
  driver_get := fun _ => .error (.keyError "not-found")
  driver_delete := fun _ => .ok ()

/-- Witness for C1 at a concrete input: the user holds only "r-member"
and requests "r-admin". -/
theorem C1_witness :
    create_application_credential envW
      [("id", Value.str "c1"), ("user_id", Value.str "u1"),
       ("project_id", Value.str "p1"), ("secret", Value.str "s3cr3t"),
       ("roles", Value.roles [[("id", "r-admin")]])] =
      (.error (.roleAssignmentNotFound "r-admin" "u1" "p1"),
       [Event.oracleQuery "u1" "p1"]) :=
  C1_create_unmet_role_fails_before_persistence envW _ "u1" "p1"
    [] [("id", "r-admin")] [] ["r-member"] "r-admin"
    rfl rfl rfl rfl (by simp) rfl (by decide)

/-- Claim C2: in `delete_application_credential`, the cache entry for the
given credential id is invalidated strictly before the Store Driver's
delete is invoked (the invalidation is the first trace event, the driver
delete the second, and the resulting cache holds no entry for the id),
and the "deleted" audit event is emitted only after the driver confirms
deletion — a driver failure propagates to the caller with no audit event
emitted. -/
theorem C2_delete_invalidates_cache_before_driver_delete
    (env : Env) (st : MState) (cid : String) :
    (delete_application_credential env st cid).2.2.head? = some Event.cacheInvalidate ∧
    ((delete_application_credential env st cid).2.2)[1]? =
      some (Event.driverDelete cid) ∧
    dget (delete_application_credential env st cid).2.1.cache cid = none ∧
    (∀ e, env.driver_delete cid = .error e →
      (delete_application_credential env st cid).1 = .error e ∧
      Event.auditDeleted cid ∉ (delete_application_credential env st cid).2.2) ∧
    (env.driver_delete cid = .ok () →
      (delete_application_credential env st cid).2.2 =
        [Event.cacheInvalidate, Event.driverDelete cid, Event.auditDeleted cid]) := by
  cases hd : env.driver_delete cid with
  | error e =>
    refine ⟨?_, ?_, ?_, ?_, ?_⟩ <;>
      simp [delete_application_credential, hd, dget]
  | ok u =>
    cases u
    refine ⟨?_, ?_, ?_, ?_, ?_⟩ <;>
      simp [delete_application_credential, hd, dget]

/-- Claim C5: the Manager registers the user-delete handler for the
user-deleted and user-disabled events and the assignment-removal handler
for the internal invalidate-user-project-tokens event; the first, on a
payload carrying a user id, invokes exactly the Store Driver bulk delete
for that user (which removes every stored credential owned by the user),
and the second, on a payload carrying (user_id, project_id), invokes
exactly the driver bulk delete for that pair, which leaves the user's
credentials on other projects untouched. -/
theorem C5_cascading_delete_callbacks
    (s1 s2 s3 : String) (payloadU payloadA : List (String × RInfo)) (ri : SDict)
    (uid pid : String) (store : Store)
    (hu : dget payloadU "resource_info" = some (RInfo.str uid))
    (ha : dget payloadA "resource_info" = some (RInfo.dict ri))
    (hru : dget ri "user_id" = some uid)
    (hrp : dget ri "project_id" = some pid) :
    _register_callback_listeners =
      [(ACTIONS_deleted, "user", Callback.onUserDelete),
       (ACTIONS_disabled, "user", Callback.onUserDelete),
       (ACTIONS_internal, INVALIDATE_USER_PROJECT_TOKEN_PERSISTENCE,
        Callback.onAssignmentRemoval)] ∧
    runCallback Callback.onUserDelete s1 s2 s3 payloadU =
      .ok [Event.driverDeleteForUser (RInfo.str uid)] ∧
    runCallback Callback.onAssignmentRemoval s1 s2 s3 payloadA =
      .ok [Event.driverDeleteForUserOnProject uid pid] ∧
    (∀ r ∈ store, dget r "user_id" = some (Value.str uid) →
      r ∉ store_delete_for_user store uid) ∧
    (∀ r ∈ store, dget r "user_id" ≠ some (Value.str uid) →
      r ∈ store_delete_for_user store uid) ∧
    (∀ r ∈ store,
      dget r "user_id" = some (Value.str uid) →
      dget r "project_id" = some (Value.str pid) →
      r ∉ store_delete_for_user_on_project store uid pid) ∧
    (∀ r ∈ store, dget r "project_id" ≠ some (Value.str pid) →
      r ∈ store_delete_for_user_on_project store uid pid) := by
  refine ⟨rfl, ?_, ?_, ?_, ?_, ?_, ?_⟩
  · simp [runCallback, _delete_app_creds_on_user_delete_callback, hu,
          _delete_application_credentials_for_user]
  · simp [runCallback, _delete_app_creds_on_assignment_removal, ha, dgetE, hru, hrp,
          _delete_application_credentials_for_user_on_project]
  · intro r _ hmatch
    simp [store_delete_for_user, List.mem_filter, hmatch]
  · intro r hr hne
    simp [store_delete_for_user, List.mem_filter, hr, hne]
  · intro r _ h1 h2
    simp [store_delete_for_user_on_project, List.mem_filter, h1, h2]
  · intro r hr hne
    simp [store_delete_for_user_on_project, List.mem_filter, hr, hne]

/-- Witness for C5 at concrete payloads and a three-record store: user u1
has credentials on projects p1 and p2, user u2 has one on p1. -/
theorem C5_witness :
    (runCallback Callback.onUserDelete "identity" "user" "deleted"
        [("resource_info", RInfo.str "u1")] =
      .ok [Event.driverDeleteForUser (RInfo.str "u1")]) ∧
    (runCallback Callback.onAssignmentRemoval "identity" "x" "internal"
        [("resource_info", RInfo.dict [("user_id", "u1"), ("project_id", "p1")])] =
      .ok [Event.driverDeleteForUserOnProject "u1" "p1"]) ∧
    ([("user_id", Value.str "u1"), ("project_id", Value.str "p2")] ∈
      store_delete_for_user_on_project
        [[("user_id", Value.str "u1"), ("project_id", Value.str "p1")],
         [("user_id", Value.str "u1"), ("project_id", Value.str "p2")],
         [("user_id", Value.str "u2"), ("project_id", Value.str "p1")]] "u1" "p1") ∧
    ([("user_id", Value.str "u1"), ("project_id", Value.str "p1")] ∉
      store_delete_for_user_on_project
        [[("user_id", Value.str "u1"), ("project_id", Value.str "p1")],
         [("user_id", Value.str "u1"), ("project_id", Value.str "p2")],
         [("user_id", Value.str "u2"), ("project_id", Value.str "p1")]] "u1" "p1") := by
  obtain ⟨-, h1, h2, -, -, h3, h4⟩ :=
    C5_cascading_delete_callbacks "identity" "user" "deleted"
      [("resource_info", RInfo.str "u1")]
      [("resource_info", RInfo.dict [("user_id", "u1"), ("project_id", "p1")])]
      [("user_id", "u1"), ("project_id", "p1")] "u1" "p1"
      [[("user_id", Value.str "u1"), ("project_id", Value.str "p1")],
       [("user_id", Value.str "u1"), ("project_id", Value.str "p2")],
       [("user_id", Value.str "u2"), ("project_id", Value.str "p1")]]
      rfl rfl rfl rfl
  exact ⟨h1, h2,
    h4 _ (by simp) (by decide),
    h3 _ (by simp) rfl rfl⟩

/-- The success path of `create_application_credential`, in closed form:
when the input carries the needed fields, every requested role is held,
and the driver-returned record carries a hash and a role list, the result
is the processed projection and the trace is oracle query, driver create,
audit, in that order. -/
theorem create_success_eq
    (env : Env) (ac : Dict) (user_id project_id : String)
    (rs rrs : List SDict) (secretv idv shv : Value) (user_roles ids : List String)
    (hu : dget ac "user_id" = some (Value.str user_id))
    (hp : dget ac "project_id" = some (Value.str project_id))
    (hr : (dget ac "roles").getD (Value.roles []) = Value.roles rs)
    (hur : (_get_user_roles env user_id project_id).1 = .ok user_roles)
    (hall : ∀ r ∈ rs, ∃ rid, dget r "id" = some rid ∧ rid ∈ user_roles)
    (hs : dget ac "secret" = some secretv)
    (hid : dget ac "id" = some idv)
    (hsh : dget (env.driver_create (derase ac "roles") rs) "secret_hash" = some shv)
    (hrr : dget (env.driver_create (derase ac "roles") rs) "roles" =
      some (Value.roles rrs))
    (hids : roleRefIds rrs = .ok ids) :
    create_application_credential env ac =
      (.ok (dset
              (derase (dset (env.driver_create (derase ac "roles") rs) "secret" secretv)
                "secret_hash")
              "roles" (Value.roles (ids.map env.get_role))),
       [Event.oracleQuery user_id project_id,
        Event.driverCreate (derase ac "roles") rs,
        Event.auditCreated idv]) := by
  have hreq : _require_user_has_role_in_project env rs user_id project_id =
      (.ok (), [Event.oracleQuery user_id project_id]) := by
    rw [require_eq env user_id project_id rs user_roles hur]
    have h0 := requireRolesLoop_skips_met user_roles user_id project_id rs [] hall
    rw [List.append_nil] at h0
    rw [h0]
    rfl
  have hsecret1 : dget (derase ac "roles") "secret" = some secretv := by
    rw [dget_derase_ne ac "roles" "secret" (by decide)]
    exact hs
  have hid1 : dget (derase ac "roles") "id" = some idv := by
    rw [dget_derase_ne ac "roles" "id" (by decide)]
    exact hid
  have hprocsh : dget (dset (env.driver_create (derase ac "roles") rs) "secret" secretv)
      "secret_hash" = some shv := by
    rw [dget_dset_ne _ "secret" "secret_hash" _ (by decide)]
    exact hsh
  have hprocroles :
      dget (derase (dset (env.driver_create (derase ac "roles") rs) "secret" secretv)
        "secret_hash") "roles" = some (Value.roles rrs) := by
    rw [dget_derase_ne _ "secret_hash" "roles" (by decide),
        dget_dset_ne _ "secret" "roles" _ (by decide)]
    exact hrr
  have hexp := get_role_list_eq_map env rrs ids hids
  have hproc : _process_app_cred env
      (dset (env.driver_create (derase ac "roles") rs) "secret" secretv) =
      .ok (dset
             (derase (dset (env.driver_create (derase ac "roles") rs) "secret" secretv)
               "secret_hash")
             "roles" (Value.roles (ids.map env.get_role))) := by
    simp only [_process_app_cred, hprocsh, hprocroles, hexp]
  simp only [create_application_credential, hu, hp, hr, hreq,
    hsecret1, hproc, hid1]
  rfl

/-- Claim C3: for every create request where the user holds all the
requested roles (and the input and driver record are well-shaped),
`create_application_credential` persists via the Store Driver, re-attaches
the caller's plaintext secret to the returned result, expands the role ids
to full role objects, strips the `secret_hash` field from the returned
projection, and emits the "created" audit event last, before returning. -/
theorem C3_create_success_shape
    (env : Env) (ac : Dict) (user_id project_id : String)
    (rs rrs : List SDict) (secretv idv shv : Value) (user_roles ids : List String)
    (hu : dget ac "user_id" = some (Value.str user_id))
    (hp : dget ac "project_id" = some (Value.str project_id))
    (hr : dget ac "roles" = some (Value.roles rs))
    (hur : (_get_user_roles env user_id project_id).1 = .ok user_roles)
    (hall : ∀ r ∈ rs, ∃ rid, dget r "id" = some rid ∧ rid ∈ user_roles)
    (hs : dget ac "secret" = some secretv)
    (hid : dget ac "id" = some idv)
    (hsh : dget (env.driver_create (derase ac "roles") rs) "secret_hash" = some shv)
    (hrr : dget (env.driver_create (derase ac "roles") rs) "roles" =
      some (Value.roles rrs))
    (hids : roleRefIds rrs = .ok ids) :
    ∃ proj,
      create_application_credential env ac =
        (.ok proj,
         [Event.oracleQuery user_id project_id,
          Event.driverCreate (derase ac "roles") rs,
          Event.auditCreated idv]) ∧
      dget proj "secret" = some secretv ∧
      dget proj "secret_hash" = none ∧
      dget proj "roles" = some (Value.roles (ids.map env.get_role)) := by
  refine ⟨_, create_success_eq env ac user_id project_id rs rrs secretv idv shv
    user_roles ids hu hp (by rw [hr]; rfl) hur hall hs hid hsh hrr hids, ?_, ?_, ?_⟩
  · rw [dget_dset_ne _ "roles" "secret" _ (by decide),
        dget_derase_ne _ "secret_hash" "secret" (by decide),
        dget_dset_self]
  · rw [dget_dset_ne _ "roles" "secret_hash" _ (by decide), dget_derase_self]
  · rw [dget_dset_self]

/-- A concrete environment for the success-path witnesses: the Store
Driver strips the plaintext secret, attaches a hash, stores the roles, and
returns the stored record for credential id "c1". -/
def envW4 : Env where
  list_role_assignments := fun _ _ => [[("role_id", "r-member")]]
  get_role := fun rid => [("id", rid), ("name", "role-" ++ rid)]
  driver_create := fun d roles =>
    dset (dset (derase d "secret") "secret_hash" (Value.str "HASH")) "roles"
      (Value.roles roles)
  driver_get := fun cid =>
    if cid = "c1" then
      .ok [("id", Value.str "c1"), ("user_id", Value.str "u1"),
           ("project_id", Value.str "p1"), ("secret_hash", Value.str "HASH"),
           ("roles", Value.roles [[("id", "r-member")]])]
    else .error (.keyError cid)
  driver_delete := fun _ => .ok ()

/-- Witness for C3 at a concrete input: the user holds the single
requested role "r-member". -/
theorem C3_witness :
    ∃ proj,
      create_application_credential envW4
        [("id", Value.str "c1"), ("user_id", Value.str "u1"),
         ("project_id", Value.str "p1"), ("secret", Value.str "s3cr3t"),
         ("roles", Value.roles [[("id", "r-member")]])] =
        (.ok proj,
         [Event.oracleQuery "u1" "p1",
          Event.driverCreate
            [("id", Value.str "c1"), ("user_id", Value.str "u1"),
             ("project_id", Value.str "p1"), ("secret", Value.str "s3cr3t")]
            [[("id", "r-member")]],
          Event.auditCreated (Value.str "c1")]) ∧
      dget proj "secret" = some (Value.str "s3cr3t") ∧
      dget proj "secret_hash" = none ∧
      dget proj "roles" =
        some (Value.roles [[("id", "r-member"), ("name", "role-r-member")]]) :=
  C3_create_success_shape envW4 _ "u1" "p1" [[("id", "r-member")]]
    [[("id", "r-member")]] (Value.str "s3cr3t") (Value.str "c1") (Value.str "HASH")
    ["r-member"] ["r-member"]
    rfl rfl rfl rfl (by simp [dget]) rfl rfl rfl rfl rfl

/-- Claim C4: for every credential successfully created, a subsequent
`get_application_credential` with its id — against a cache with no entry
for that id (fresh creates are never cached) and a driver that returns the
record it stored at create — returns a projection with the same `user_id`,
`project_id` and role set (expanded to role objects from the supplied role
ids) as supplied at creation, and containing neither the `secret_hash`
field nor the plaintext secret. -/
theorem C4_create_then_get_round_trip
    (env : Env) (st : MState) (ac : Dict) (user_id project_id cid : String)
    (rs : List SDict) (secretv idv shv : Value) (user_roles ids : List String)
    (hu : dget ac "user_id" = some (Value.str user_id))
    (hp : dget ac "project_id" = some (Value.str project_id))
    (hr : dget ac "roles" = some (Value.roles rs))
    (hur : (_get_user_roles env user_id project_id).1 = .ok user_roles)
    (hall : ∀ r ∈ rs, ∃ rid, dget r "id" = some rid ∧ rid ∈ user_roles)
    (hs : dget ac "secret" = some secretv)
    (hid : dget ac "id" = some idv)
    (hsh : dget (env.driver_create (derase ac "roles") rs) "secret_hash" = some shv)
    (hrru : dget (env.driver_create (derase ac "roles") rs) "user_id" =
      some (Value.str user_id))
    (hrrp : dget (env.driver_create (derase ac "roles") rs) "project_id" =
      some (Value.str project_id))
    (hrr : dget (env.driver_create (derase ac "roles") rs) "roles" =
      some (Value.roles rs))
    (hrsec : dget (env.driver_create (derase ac "roles") rs) "secret" = none)
    (hids : roleRefIds rs = .ok ids)
    (hget : env.driver_get cid = .ok (env.driver_create (derase ac "roles") rs))
    (hcache : dget st.cache cid = none) :
    (∃ proj, (create_application_credential env ac).1 = .ok proj) ∧
    (∃ projG st',
      get_application_credential env st cid = (.ok projG, st', [Event.driverGet cid]) ∧
      dget projG "user_id" = some (Value.str user_id) ∧
      dget projG "project_id" = some (Value.str project_id) ∧
      dget projG "roles" = some (Value.roles (ids.map env.get_role)) ∧
      dget projG "secret_hash" = none ∧
      dget projG "secret" = none) := by
  constructor
  · exact ⟨dset
      (derase (dset (env.driver_create (derase ac "roles") rs) "secret" secretv)
        "secret_hash") "roles" (Value.roles (ids.map env.get_role)),
      by rw [create_success_eq env ac user_id project_id rs rs secretv idv shv
        user_roles ids hu hp (by rw [hr]; rfl) hur hall hs hid hsh hrr hids]⟩
  · have hexp := get_role_list_eq_map env rs ids hids
    have hprocroles :
        dget (derase (env.driver_create (derase ac "roles") rs) "secret_hash")
          "roles" = some (Value.roles rs) := by
      rw [dget_derase_ne _ "secret_hash" "roles" (by decide)]
      exact hrr
    have hproc : _process_app_cred env (env.driver_create (derase ac "roles") rs) =
        .ok (dset (derase (env.driver_create (derase ac "roles") rs) "secret_hash")
          "roles" (Value.roles (ids.map env.get_role))) := by
      simp only [_process_app_cred, hsh, hprocroles, hexp]
    refine ⟨dset (derase (env.driver_create (derase ac "roles") rs) "secret_hash")
        "roles" (Value.roles (ids.map env.get_role)),
      ⟨dset st.cache cid
        (dset (derase (env.driver_create (derase ac "roles") rs) "secret_hash")
          "roles" (Value.roles (ids.map env.get_role)))⟩,
      ?_, ?_, ?_, ?_, ?_, ?_⟩
    · simp only [get_application_credential, hcache, hget, hproc]
    · rw [dget_dset_ne _ "roles" "user_id" _ (by decide),
          dget_derase_ne _ "secret_hash" "user_id" (by decide)]
      exact hrru
    · rw [dget_dset_ne _ "roles" "project_id" _ (by decide),
          dget_derase_ne _ "secret_hash" "project_id" (by decide)]
      exact hrrp
    · rw [dget_dset_self]
    · rw [dget_dset_ne _ "roles" "secret_hash" _ (by decide), dget_derase_self]
    · rw [dget_dset_ne _ "roles" "secret" _ (by decide),
          dget_derase_ne _ "secret_hash" "secret" (by decide)]
      exact hrsec

/-- Witness for C4 at a concrete input: create credential "c1" for user
"u1" on project "p1" with role "r-member", then read it back. -/
theorem C4_witness :
    (∃ proj, (create_application_credential envW4
      [("id", Value.str "c1"), ("user_id", Value.str "u1"),
       ("project_id", Value.str "p1"), ("secret", Value.str "s3cr3t"),
       ("roles", Value.roles [[("id", "r-member")]])]).1 = .ok proj) ∧
    (∃ projG st',
      get_application_credential envW4 ⟨[]⟩ "c1" =
        (.ok projG, st', [Event.driverGet "c1"]) ∧
      dget projG "user_id" = some (Value.str "u1") ∧
      dget projG "project_id" = some (Value.str "p1") ∧
      dget projG "roles" =
        some (Value.roles [[("id", "r-member"), ("name", "role-r-member")]]) ∧
      dget projG "secret_hash" = none ∧
      dget projG "secret" = none) :=
  C4_create_then_get_round_trip envW4 ⟨[]⟩ _ "u1" "p1" "c1"
    [[("id", "r-member")]] (Value.str "s3cr3t") (Value.str "c1") (Value.str "HASH")
    ["r-member"] ["r-member"]
    rfl rfl rfl rfl (by simp [dget]) rfl rfl rfl rfl rfl rfl rfl rfl rfl rfl

/-- With an empty requested-role list the check loop is vacuous, so
`_require_user_has_role_in_project` can never produce
RoleAssignmentNotFound (its only other failure is the KeyError of a
malformed oracle assignment). -/
theorem require_empty_no_role_failure (env' : Env) (u p rid aid tid : String) :
    (_require_user_has_role_in_project env' [] u p).1 ≠
      .error (.roleAssignmentNotFound rid aid tid) := by
  unfold _require_user_has_role_in_project _get_user_roles
  cases hg : roleIdsOf (env'.list_role_assignments u p) with
  | error e =>
    have he := roleIdsOf_error_shape _ e hg
    subst he
    simp [hg]
  | ok rids => simp [hg, requireRolesLoop]

/-- Claim C9: if the input to `create_application_credential` has no
`roles` key or an empty roles list, the role-authorization check passes
vacuously for every user and project — RoleAssignmentNotFound is
unreachable for every environment — and a credential scoped to zero roles
is persisted; the Role Assignment Oracle is still queried, exactly once,
even in this case. -/
theorem C9_create_empty_roles
    (env : Env) (ac : Dict) (user_id project_id : String)
    (rrs : List SDict) (secretv idv shv : Value) (user_roles ids : List String)
    (hnr : dget ac "roles" = none ∨ dget ac "roles" = some (Value.roles []))
    (hu : dget ac "user_id" = some (Value.str user_id))
    (hp : dget ac "project_id" = some (Value.str project_id))
    (hur : (_get_user_roles env user_id project_id).1 = .ok user_roles)
    (hs : dget ac "secret" = some secretv)
    (hid : dget ac "id" = some idv)
    (hsh : dget (env.driver_create (derase ac "roles") []) "secret_hash" = some shv)
    (hrr : dget (env.driver_create (derase ac "roles") []) "roles" =
      some (Value.roles rrs))
    (hids : roleRefIds rrs = .ok ids) :
    (∀ (env' : Env) (u p rid aid tid : String),
      (_require_user_has_role_in_project env' [] u p).1 ≠
        .error (.roleAssignmentNotFound rid aid tid)) ∧
    create_application_credential env ac =
      (.ok (dset
              (derase (dset (env.driver_create (derase ac "roles") []) "secret" secretv)
                "secret_hash")
              "roles" (Value.roles (ids.map env.get_role))),
       [Event.oracleQuery user_id project_id,
        Event.driverCreate (derase ac "roles") [],
        Event.auditCreated idv]) ∧
    (create_application_credential env ac).2.count
      (Event.oracleQuery user_id project_id) = 1 := by
  have hgetd : (dget ac "roles").getD (Value.roles []) = Value.roles [] := by
    rcases hnr with h | h <;> rw [h] <;> rfl
  have hc := create_success_eq env ac user_id project_id [] rrs secretv idv shv
    user_roles ids hu hp hgetd hur (by simp) hs hid hsh hrr hids
  refine ⟨fun env' u p rid aid tid =>
    require_empty_no_role_failure env' u p rid aid tid, hc, ?_⟩
  rw [hc]
  simp [List.count_cons]

/-- Witness for C9 at a concrete input: the input dict has no `roles` key
at all. -/
theorem C9_witness :
    (∀ (env' : Env) (u p rid aid tid : String),
      (_require_user_has_role_in_project env' [] u p).1 ≠
        .error (.roleAssignmentNotFound rid aid tid)) ∧
    create_application_credential envW4
      [("id", Value.str "c1"), ("user_id", Value.str "u1"),
       ("project_id", Value.str "p1"), ("secret", Value.str "s3cr3t")] =
      (.ok [("id", Value.str "c1"), ("user_id", Value.str "u1"),
            ("project_id", Value.str "p1"), ("roles", Value.roles []),
            ("secret", Value.str "s3cr3t")],
       [Event.oracleQuery "u1" "p1",
        Event.driverCreate
          [("id", Value.str "c1"), ("user_id", Value.str "u1"),
           ("project_id", Value.str "p1"), ("secret", Value.str "s3cr3t")] [],
        Event.auditCreated (Value.str "c1")]) ∧
    (create_application_credential envW4
      [("id", Value.str "c1"), ("user_id", Value.str "u1"),
       ("project_id", Value.str "p1"), ("secret", Value.str "s3cr3t")]).2.count
      (Event.oracleQuery "u1" "p1") = 1 :=
  C9_create_empty_roles envW4
    [("id", Value.str "c1"), ("user_id", Value.str "u1"),
     ("project_id", Value.str "p1"), ("secret", Value.str "s3cr3t")]
    "u1" "p1" [] (Value.str "s3cr3t") (Value.str "c1")
    (Value.str "HASH") ["r-member"] []
    (Or.inl rfl) rfl rfl rfl rfl rfl rfl rfl rfl

/-- Claim C6: for every external-auth request, `Base.authenticate` raises
Unauthorized if and only if the request carries no remote_user principal
or the variant's `_authenticate` resolution raises any exception; in the
resolution-failure case the original exception is discarded and replaced
by the generic Unauthorized "Unable to lookup user ...", whatever the
underlying exception was. -/
theorem C6_external_auth_unauthorized_iff (env : AuthEnv) (v : Variant)
    (req : Request) :
    ((∃ m, (authenticate env v req).1 = .error (.unauthorized m)) ↔
      (req.remote_user = "" ∨ ∃ e, (_authenticate env v req).1 = .error e)) ∧
    (∀ e, req.remote_user ≠ "" → (_authenticate env v req).1 = .error e →
      (authenticate env v req).1 =
        .error (.unauthorized ("Unable to lookup user " ++ req.remote_user))) := by
  by_cases hru : req.remote_user = ""
  · constructor
    · simp [authenticate, hru]
    · intro e h1 _
      exact absurd hru h1
  · rcases hA : _authenticate env v req with ⟨res, evs⟩
    cases res with
    | error e0 =>
      constructor
      · constructor
        · intro _
          exact Or.inr ⟨e0, rfl⟩
        · intro _
          exact ⟨"Unable to lookup user " ++ req.remote_user,
            by simp [authenticate, hru, hA]⟩
      · intro e _ _
        simp [authenticate, hru, hA]
    | ok uref =>
      constructor
      · cases hid : dgetE uref "id" with
        | error e1 =>
          have he1 := dgetE_error uref "id" e1 hid
          subst he1
          simp [authenticate, hru, hA, hid]
        | ok uid =>
          by_cases hb : "kerberos" ∈ env.token_bind ∧ req.auth_type.toLower = "negotiate"
          · cases hnm : dgetE uref "name" with
            | error e2 =>
              have he2 := dgetE_error uref "name" e2 hnm
              subst he2
              simp [authenticate, hru, hA, hid, hb, hnm]
            | ok nm =>
              simp [authenticate, hru, hA, hid, hb, hnm]
          · simp [authenticate, hru, hA, hid, hb]
      · intro e _ habs
        simp at habs

/-- Claim C7: every request handled by the KerberosDomain variant whose
asserted mechanism (auth_type) is not exactly "Negotiate" fails
Unauthorized, and the backend-lookup trace is empty: no identity or
resource (domain) lookup is attempted. -/
theorem C7_kerberos_requires_negotiate (env : AuthEnv) (req : Request)
    (h : req.auth_type ≠ "Negotiate") :
    (∃ m, (authenticate env .kerberosDomain req).1 = .error (.unauthorized m)) ∧
    (authenticate env .kerberosDomain req).2 = [] := by
  by_cases hru : req.remote_user = ""
  · constructor <;> simp [authenticate, hru]
  · have hA : _authenticate env .kerberosDomain req =
        (.error (.unauthorized "auth_type is not Negotiate"), []) := by
      simp [_authenticate, KerberosDomain_authenticate_resolve, h]
    constructor <;> simp [authenticate, hru, hA]

/-- A concrete environment for the external-auth witnesses: one user
"alice" resolvable by name, one domain "example", kerberos bind
enabled. -/
def authEnvW : AuthEnv where
  get_user_by_name := fun name _domain_id =>
    if name = "alice" then .ok [("id", "uid-alice"), ("name", "alice")]
    else .error (.keyError name)
  get_domain_by_name := fun name =>
    if name = "example" then .ok [("id", "dom-example"), ("name", "example")]
    else .error (.keyError name)
  default_domain_id := "default"
  token_bind := ["kerberos"]

/-- Witness for C7 at a concrete input: mechanism "Basic". -/
theorem C7_witness :
    (∃ m, (authenticate authEnvW .kerberosDomain
        { remote_user := "alice", remote_domain := "example", auth_type := "Basic" }).1 =
      .error (.unauthorized m)) ∧
    (authenticate authEnvW .kerberosDomain
      { remote_user := "alice", remote_domain := "example", auth_type := "Basic" }).2 =
      [] :=
  C7_kerberos_requires_negotiate authEnvW
    { remote_user := "alice", remote_domain := "example", auth_type := "Basic" }
    (by decide)

/-- Claim C8: for every successful external authentication, the response
data contains the resolved user's id under `user_id`, and it contains the
resolved user's name under bind/kerberos exactly when the token bind
configuration includes "kerberos" and the request's auth_type, lowercased,
equals "negotiate". -/
theorem C8_external_auth_success_response
    (env : AuthEnv) (v : Variant) (req : Request) (uref : URef)
    (evs : List AEvent) (uid nm : String)
    (hru : req.remote_user ≠ "")
    (hres : _authenticate env v req = (.ok uref, evs))
    (hid : dget uref "id" = some uid)
    (hnm : dget uref "name" = some nm) :
    ∃ resp, authenticate env v req = (.ok resp, evs) ∧
      dget resp.response_data "user_id" = some (AVal.str uid) ∧
      dget resp.response_data "bind" =
        (if "kerberos" ∈ env.token_bind ∧ req.auth_type.toLower = "negotiate"
         then some (AVal.dict [("kerberos", nm)]) else none) := by
  by_cases hb : "kerberos" ∈ env.token_bind ∧ req.auth_type.toLower = "negotiate"
  · refine ⟨⟨true, none,
      dset [("user_id", AVal.str uid)] "bind" (AVal.dict [("kerberos", nm)])⟩,
      ?_, ?_, ?_⟩
    · simp [authenticate, hru, hres, dgetE, hid, hb, hnm]
    · rw [dget_dset_ne _ "bind" "user_id" _ (by decide)]
      simp [dget]
    · rw [dget_dset_self]
      simp [hb]
  · refine ⟨⟨true, none, [("user_id", AVal.str uid)]⟩, ?_, ?_, ?_⟩
    · simp [authenticate, hru, hres, dgetE, hid, hb]
    · simp [dget]
    · simp [hb, dget]

/-- Witness for C8 at a concrete input: DefaultDomain resolution of
"alice" with mechanism "Negotiate" and kerberos bind configured. -/
theorem C8_witness :
    ∃ resp, authenticate authEnvW .defaultDomain
        { remote_user := "alice", remote_domain := "", auth_type := "Negotiate" } =
      (.ok resp, [AEvent.identityLookup "alice" "default"]) ∧
      dget resp.response_data "user_id" = some (AVal.str "uid-alice") ∧
      dget resp.response_data "bind" =
        (if "kerberos" ∈ authEnvW.token_bind ∧
            (String.toLower "Negotiate") = "negotiate"
         then some (AVal.dict [("kerberos", "alice")]) else none) :=
  C8_external_auth_success_response authEnvW .defaultDomain
    { remote_user := "alice", remote_domain := "", auth_type := "Negotiate" }
    [("id", "uid-alice"), ("name", "alice")] [AEvent.identityLookup "alice" "default"]
    "uid-alice" "alice" (by decide) rfl rfl rfl

/-! ### Frame lemmas for the heap model -/

theorem Heap_read_append (h : Heap) (d : Dict) (x : Nat) (hx : x < h.length) :
    Heap.read (h ++ [d]) x = Heap.read h x :=
  List.getD_append h [d] [] x hx

theorem Heap_read_write_ne (h : Heap) (i : Nat) (d : Dict) (x : Nat) (hx : x ≠ i) :
    Heap.read (Heap.write h i d) x = Heap.read h x := by
  unfold Heap.read Heap.write List.getD
  rw [List.get?_eq_getElem?, List.get?_eq_getElem?, List.getElem?_set_ne (by omega)]

/-- Lemma: `_process_app_cred_heap` writes only through the address of the copy it
allocates: every pre-existing cell is unchanged. -/
theorem process_heap_frame (env : Env) (h : Heap) (r x : Nat) (hx : x < h.length) :
    Heap.read (_process_app_cred_heap env h r).2 x = Heap.read h x := by
  have hxne : x ≠ h.length := Nat.ne_of_lt hx
  unfold _process_app_cred_heap
  dsimp only
  split
  · exact Heap_read_append h _ x hx
  · split
    · rw [Heap_read_write_ne _ _ _ _ hxne]
      exact Heap_read_append h _ x hx
    · rw [Heap_read_write_ne _ _ _ _ hxne]
      exact Heap_read_append h _ x hx
    · split
      · rw [Heap_read_write_ne _ _ _ _ hxne]
        exact Heap_read_append h _ x hx
      · rw [Heap_read_write_ne _ _ _ _ hxne, Heap_read_write_ne _ _ _ _ hxne]
        exact Heap_read_append h _ x hx

/-- Lemma: `create_application_credential_heap` writes only through the addresses
it allocates (the line-125 copy and the driver-returned record): every
pre-existing cell, in particular the caller-supplied dict, is unchanged. -/
theorem create_heap_frame (env : Env) (h : Heap) (acRef x : Nat)
    (hx : x < h.length) :
    Heap.read (create_application_credential_heap env h acRef).2 x =
      Heap.read h x := by
  have hxne : x ≠ h.length := Nat.ne_of_lt hx
  have hread1 : ∀ d1 : Dict, Heap.read (h ++ [d1]) x = Heap.read h x :=
    fun d1 => Heap_read_append h d1 x hx
  have hread2 : ∀ d1 d2 : Dict,
      Heap.read (Heap.write (h ++ [d1]) h.length d2) x = Heap.read h x := by
    intro d1 d2
    rw [Heap_read_write_ne _ _ _ _ hxne]
    exact hread1 d1
  have hlen2 : ∀ d1 d2 : Dict,
      (Heap.write (h ++ [d1]) h.length d2).length = h.length + 1 := by
    intro d1 d2
    simp [Heap.write]
  have hread4 : ∀ d1 d2 d3 d4 : Dict,
      Heap.read (Heap.write (Heap.write (h ++ [d1]) h.length d2 ++ [d3])
        (Heap.write (h ++ [d1]) h.length d2).length d4) x = Heap.read h x := by
    intro d1 d2 d3 d4
    rw [Heap_read_write_ne _ _ _ _ (by rw [hlen2]; omega)]
    rw [Heap_read_append _ _ x (by rw [hlen2]; omega)]
    exact hread2 d1 d2
  have hlen4 : ∀ d1 d2 d3 d4 : Dict,
      x < (Heap.write (Heap.write (h ++ [d1]) h.length d2 ++ [d3])
        (Heap.write (h ++ [d1]) h.length d2).length d4).length := by
    intro d1 d2 d3 d4
    simp [Heap.write]
    omega
  have hread5 : ∀ (d1 d2 d3 d4 : Dict) (rr : Nat),
      Heap.read (_process_app_cred_heap env
        (Heap.write (Heap.write (h ++ [d1]) h.length d2 ++ [d3])
          (Heap.write (h ++ [d1]) h.length d2).length d4) rr).2 x =
      Heap.read h x := by
    intro d1 d2 d3 d4 rr
    rw [process_heap_frame env _ rr x (hlen4 d1 d2 d3 d4)]
    exact hread4 d1 d2 d3 d4
  unfold create_application_credential_heap
  dsimp only
  split
  · exact hread1 _
  · exact hread1 _
  · split
    · exact hread1 _
    · exact hread1 _
    · split
      · exact hread2 _ _
      · split
        · exact hread2 _ _
        · split
          · exact hread2 _ _
          · split
            · rename_i e h5 heq
              have h5eq := congrArg Prod.snd heq
              dsimp only at h5eq ⊢
              rw [← h5eq]
              exact hread5 _ _ _ _ _
            · rename_i r2 h5 heq
              have h5eq := congrArg Prod.snd heq
              dsimp only at h5eq
              split
              · dsimp only
                rw [← h5eq]
                exact hread5 _ _ _ _ _
              · dsimp only
                rw [← h5eq]
                exact hread5 _ _ _ _ _

/-- Claim C10: `create_application_credential` never mutates the
caller-supplied application-credential dict (it copies before popping
`roles` or attaching the secret) and `_process_app_cred` never mutates the
record passed in (it copies before stripping `secret_hash` and replacing
`roles`): in the heap model, the cell a caller passes in is unchanged when
either call returns, so get/list leave driver-returned records
unchanged. -/
theorem C10_no_mutation_of_inputs
    (env : Env) (h : Heap) (acRef r : Nat)
    (hac : acRef < h.length) (hr : r < h.length) :
    Heap.read (create_application_credential_heap env h acRef).2 acRef =
      Heap.read h acRef ∧
    Heap.read (_process_app_cred_heap env h r).2 r = Heap.read h r :=
  ⟨create_heap_frame env h acRef acRef hac, process_heap_frame env h r r hr⟩

/-- Witness for C10 on a one-cell heap holding a concrete
application-credential dict. -/
theorem C10_witness :
    Heap.read (create_application_credential_heap envW4
      [[("id", Value.str "c1"), ("user_id", Value.str "u1"),
        ("project_id", Value.str "p1"), ("secret", Value.str "s3cr3t"),
        ("roles", Value.roles [[("id", "r-member")]])]] 0).2 0 =
      Heap.read
        [[("id", Value.str "c1"), ("user_id", Value.str "u1"),
          ("project_id", Value.str "p1"), ("secret", Value.str "s3cr3t"),
          ("roles", Value.roles [[("id", "r-member")]])]] 0 ∧
    Heap.read (_process_app_cred_heap envW4
      [[("id", Value.str "c1"), ("user_id", Value.str "u1"),
        ("project_id", Value.str "p1"), ("secret", Value.str "s3cr3t"),
        ("roles", Value.roles [[("id", "r-member")]])]] 0).2 0 =
      Heap.read
        [[("id", Value.str "c1"), ("user_id", Value.str "u1"),
          ("project_id", Value.str "p1"), ("secret", Value.str "s3cr3t"),
          ("roles", Value.roles [[("id", "r-member")]])]] 0 :=
  C10_no_mutation_of_inputs envW4
    [[("id", Value.str "c1"), ("user_id", Value.str "u1"),
      ("project_id", Value.str "p1"), ("secret", Value.str "s3cr3t"),
      ("roles", Value.roles [[("id", "r-member")]])]] 0 0
    (by decide) (by decide)
